import Mathlib

/-!
Verification development for the InstantNav predictive-prefetch engine.

The definitions below are a shallow embedding of the JavaScript sources:
  - src/background/prefetcher.js   (Prefetcher: directive pool, dedup, TTL sweep)
  - src/background/service-worker.js (orchestrator `_handlePredictions`)
  - src/background/context-manager.js (ContextManager: auto-mode rules, profiles)
  - src/content/tracker.js         (CursorTracker: `getIntentionScore`)
  - src/content/predictor.js       (LinkPredictor: scoring batch, grace timers;
                                    TrustList: `canPrefetch` / `canPrerender`)

JavaScript `Map` objects are embedded as insertion-ordered association lists;
`Map.set` replaces in place, `Map.delete` filters, `Map.has` is key lookup.
Host-provided primitives (DOM injection, `chrome.*` APIs, persistence) are
effect-free from the point of view of the tracked state and are omitted.
JS numbers are embedded as real numbers where the code computes with
`Math.sqrt`/`Math.log2`, and as rationals/naturals where only comparisons
and integer timestamps occur.
-/

namespace InstantNav

/-- Model of `Map.prototype.set`: replace the value at an existing key in
place, otherwise append the new binding (JS Maps preserve insertion order). -/
def mapSet {A : Type} : List (String × A) → String → A → List (String × A)
  | [], k, v => [(k, v)]
  | (k', v') :: rest, k, v =>
    if k' == k then (k', v) :: rest else (k', v') :: mapSet rest k v

/-- Model of `Map.prototype.has`. -/
def mapHas {A : Type} (m : List (String × A)) (k : String) : Bool :=
  (List.lookup k m).isSome

/-- Model of `Map.prototype.delete`. -/
def mapDelete {A : Type} (m : List (String × A)) (k : String) : List (String × A) :=
  m.filter (fun e => !(e.1 == k))

/-- A parsed URL, standing for the result of the host `new URL(url)` on a
well-formed absolute URL string: `href = origin + pathname + search + hash`. -/
structure Url where
  origin : String
  pathname : String
  search : String
  hash : String
  hostname : String
  deriving DecidableEq, Repr

/-- The raw URL string the JS code passes around (`URL.prototype.href`
serialization of the parsed components). -/
def serialize (u : Url) : String :=
  u.origin ++ u.pathname ++ u.search ++ u.hash

/-- Embedding of `Prefetcher._normalize` (prefetcher.js): strip the fragment
(the result is rebuilt without `u.hash`), strip a trailing slash from
non-root paths, keep the query string. -/
def normalize (u : Url) : String :=
  let path :=
    if u.pathname.data.getLast? = some '/' ∧ 1 < u.pathname.length then
      String.mk (u.pathname.data.dropLast)
    else u.pathname
  u.origin ++ path ++ u.search

/-- The four speculative directive tiers. -/
inductive DirectiveType where
  | dnsPrefetchTy
  | preconnectTy
  | prefetchTy
  | prerenderTy
  deriving DecidableEq, Repr

/-- Entry of `this.prefetchedUrls` in prefetcher.js: `{ type, timestamp }`. -/
structure PrefetchEntry where
  ty : DirectiveType
  timestamp : Nat
  deriving DecidableEq, Repr

/-- Entry of `this.activeSpeculationRules`: `{ type, url, timestamp }` with
the raw URL string that was pushed. -/
structure SpecRule where
  ty : DirectiveType
  url : String
  timestamp : Nat
  deriving DecidableEq, Repr

/-- Mutable state of the `Prefetcher` class. -/
structure PrefetcherState where
  prefetchedUrls : List (String × PrefetchEntry)
  activeSpeculationRules : List SpecRule
  deriving DecidableEq, Repr

/-- `Prefetcher` constructor state. -/
def initialPrefetcher : PrefetcherState := ⟨[], []⟩

/-- `this.maxRules = 10`. -/
def maxRules : Nat := 10

/-- Embedding of `Prefetcher._track(url, type)`: record the directive under
the normalized URL with the current time. -/
def track (s : PrefetcherState) (u : Url) (ty : DirectiveType) (now : Nat) : PrefetcherState :=
  { s with prefetchedUrls := mapSet s.prefetchedUrls (normalize u) ⟨ty, now⟩ }

/-- Embedding of `Prefetcher._removeOldestRule`: shift the earliest rule and
delete its (raw) URL from the tracked map. -/
def removeOldestRule (s : PrefetcherState) : PrefetcherState :=
  match s.activeSpeculationRules with
  | [] => s
  | oldest :: rest => ⟨mapDelete s.prefetchedUrls oldest.url, rest⟩

/-- Embedding of `Prefetcher._addSpeculationRule(tabId, type, url)`: evict the
oldest rule when at capacity, then push the new rule (script injection into
the page is a host effect and carries no tracked state). -/
def addSpeculationRule (s : PrefetcherState) (ty : DirectiveType) (rawUrl : String)
    (now : Nat) : PrefetcherState :=
  let s1 := if maxRules ≤ s.activeSpeculationRules.length then removeOldestRule s else s
  { s1 with activeSpeculationRules := s1.activeSpeculationRules ++ [⟨ty, rawUrl, now⟩] }

/-- Embedding of `Prefetcher.dnsPrefetch(url)`: inject a link hint (host
effect) and track the URL. -/
def dnsPrefetch (s : PrefetcherState) (u : Url) (now : Nat) : PrefetcherState :=
  track s u .dnsPrefetchTy now

/-- Embedding of `Prefetcher.preconnect(url)`. -/
def preconnect (s : PrefetcherState) (u : Url) (now : Nat) : PrefetcherState :=
  track s u .preconnectTy now

/-- Embedding of `Prefetcher.prefetch(url, tabId)`: bail out when the raw URL
string is already a key of `prefetchedUrls`, or when data saver is on;
otherwise add a speculation rule for the raw URL and track the normalized
URL. -/
def prefetch (s : PrefetcherState) (u : Url) (saveData : Bool) (now : Nat) : PrefetcherState :=
  if mapHas s.prefetchedUrls (serialize u) then s
  else if saveData then s
  else track (addSpeculationRule s .prefetchTy (serialize u) now) u .prefetchTy now

/-- Embedding of `Prefetcher.prerender(url, tabId)`. -/
def prerender (s : PrefetcherState) (u : Url) (saveData : Bool) (now : Nat) : PrefetcherState :=
  if mapHas s.prefetchedUrls (serialize u) then s
  else if saveData then s
  else track (addSpeculationRule s .prerenderTy (serialize u) now) u .prerenderTy now

/-- Embedding of `Prefetcher.wasPrefetched(url)`: a pure key lookup under the
normalized URL; note that it takes no clock and inspects no timestamps. -/
def wasPrefetched (s : PrefetcherState) (u : Url) : Bool :=
  mapHas s.prefetchedUrls (normalize u)

/-- Embedding of `Prefetcher.getPrefetchType(url)`. -/
def getPrefetchType (s : PrefetcherState) (u : Url) : Option DirectiveType :=
  (List.lookup (normalize u) s.prefetchedUrls).map (·.ty)

/-- Embedding of `Prefetcher.clearOldPrefetches(maxAgeMs = 60000)`: the JS
for-loop deletes every entry with `now - timestamp > maxAgeMs` while
iterating, which is the same as keeping exactly the entries with
`now - timestamp ≤ maxAgeMs`. -/
def clearOldPrefetches (s : PrefetcherState) (now : Nat) (maxAgeMs : Nat) : PrefetcherState :=
  { s with prefetchedUrls :=
      s.prefetchedUrls.filter (fun e => decide (now - e.2.timestamp ≤ maxAgeMs)) }

/-! ### Trust list (predictor.js, `TrustList`) -/

def DEFAULT_TRUSTED : List String :=
  ["github.com", "stackoverflow.com", "wikipedia.org", "youtube.com", "reddit.com"]

def KNOWN_TRACKERS : List String :=
  ["doubleclick.net", "googlesyndication.com", "facebook.net", "analytics.google.com"]

def BLACKLISTED : List String :=
  ["google.com", "www.google.com", "accounts.google.com", "myaccount.google.com",
   "recaptcha.net", "bankofamerica.com", "chase.com", "paypal.com"]

/-- Character-level model of `String.prototype.endsWith`. -/
def jsEndsWith (s suf : String) : Bool := suf.data.isSuffixOf s.data

/-- Character-level model of the anchored regex test for a `www.` lead. -/
def jsStartsWith (s pre : String) : Bool := pre.data.isPrefixOf s.data

/-- Embedding of `TrustList._extractDomain`: the hostname of the parsed URL
with a leading `www.` removed. -/
def extractDomain (u : Url) : String :=
  if jsStartsWith u.hostname "www." then String.mk (u.hostname.data.drop 4)
  else u.hostname

/-- Embedding of `TrustList._isKnownTracker`. -/
def isKnownTracker (domain : String) : Bool :=
  KNOWN_TRACKERS.any (fun t => domain == t || jsEndsWith domain ("." ++ t))

/-- Embedding of `TrustList._isBlacklisted`. -/
def isBlacklisted (domain : String) : Bool :=
  BLACKLISTED.any (fun b => domain == b || jsEndsWith domain ("." ++ b))

/-- Embedding of `TrustList._isDefaultTrusted`. -/
def isDefaultTrusted (domain : String) : Bool :=
  DEFAULT_TRUSTED.any (fun t => domain == t || jsEndsWith domain ("." ++ t))

/-- Embedding of `TrustList.getTrustLevel(url)`; `levels` is the stored
`trustLevels` object (explicit per-domain settings win). -/
def getTrustLevel (levels : List (String × String)) (u : Url) : String :=
  let domain := extractDomain u
  match List.lookup domain levels with
  | some l => l
  | none =>
    if isKnownTracker domain then "untrusted"
    else if isBlacklisted domain then "untrusted"
    else if isDefaultTrusted domain then "trusted"
    else "neutral"

/-- Embedding of `TrustList.canPrefetch(url)`. -/
def canPrefetch (levels : List (String × String)) (u : Url) : Bool :=
  let level := getTrustLevel levels u
  level == "trusted" || level == "neutral"

/-- Embedding of `TrustList.canPrerender(url)`. -/
def canPrerender (levels : List (String × String)) (u : Url) : Bool :=
  getTrustLevel levels u == "trusted"

/-! ### Context manager (context-manager.js) -/

structure BatteryInfo where
  charging : Bool
  level : ℚ
  deriving DecidableEq, Repr

structure NetworkInfo where
  ty : String
  downlink : ℚ
  saveData : Bool
  deriving DecidableEq, Repr

structure MemoryInfo where
  usedPercent : ℚ
  deriving DecidableEq, Repr

/-- `this.contextData` of the `ContextManager` class. -/
structure ContextData where
  battery : BatteryInfo
  network : NetworkInfo
  memory : MemoryInfo
  deriving DecidableEq, Repr

inductive EffectiveMode where
  | turbo
  | balanced
  | eco
  deriving DecidableEq, Repr

/-- User-selectable mode (`setMode` accepts exactly these four). -/
inductive Mode where
  | turbo
  | balanced
  | eco
  | auto
  deriving DecidableEq, Repr

/-- Operating profile: concurrency quotas and score thresholds. -/
structure Profile where
  maxPrerender : Nat
  maxPrefetch : Nat
  prerenderThreshold : ℝ
  prefetchThreshold : ℝ
  preconnectThreshold : ℝ

/-- The static `this.profiles` table of context-manager.js. -/
def profiles : EffectiveMode → Profile
  | .turbo => ⟨3, 10, 70, 50, 30⟩
  | .balanced => ⟨1, 5, 80, 60, 40⟩
  | .eco => ⟨0, 2, 100, 85, 70⟩

/-- Embedding of the body of `ContextManager._recalculateMode` (the branch
taken when `currentMode === 'auto'`): eco conditions first, then turbo,
else balanced. -/
def recalculateMode (ctx : ContextData) : EffectiveMode :=
  if (ctx.battery.charging = false ∧ ctx.battery.level < 0.2) ∨
      ctx.network.saveData = true ∨
      ctx.network.ty = "2g" ∨ ctx.network.ty = "slow-2g" ∨
      0.8 < ctx.memory.usedPercent then
    .eco
  else if ctx.battery.charging = true ∧
      (ctx.network.ty = "4g" ∨ 5 < ctx.network.downlink) ∧
      ctx.memory.usedPercent < 0.5 then
    .turbo
  else
    .balanced

/-- Embedding of `ContextManager.getProfile`: in auto mode the effective
mode computed by `recalculateMode` selects the profile, otherwise the
manually chosen mode does. -/
def getProfile (currentMode : Mode) (effectiveMode : EffectiveMode) : Profile :=
  match currentMode with
  | .auto => profiles effectiveMode
  | .turbo => profiles .turbo
  | .balanced => profiles .balanced
  | .eco => profiles .eco

/-! ### Orchestrator (service-worker.js, `_handlePredictions`) -/

/-- One element of the `links` payload of a `PREDICTION_UPDATE` message. -/
structure RankedLink where
  url : Url
  score : ℝ

/-- Embedding of one iteration of the `for (const link of links)` loop of
`InstantNavService._handlePredictions`: the first matching tier fires.
Returns the new prefetcher state and the directive that was dispatched,
if any. Note that no trust query occurs anywhere in this function. -/
noncomputable def handleLink (profile : Profile) (saveData : Bool) (now : Nat)
    (s : PrefetcherState) (link : RankedLink) : PrefetcherState × Option DirectiveType :=
  if profile.prerenderThreshold ≤ link.score ∧ 0 < profile.maxPrerender then
    (prerender s link.url saveData now, some .prerenderTy)
  else if profile.prefetchThreshold ≤ link.score ∧ 0 < profile.maxPrefetch then
    (prefetch s link.url saveData now, some .prefetchTy)
  else if profile.preconnectThreshold ≤ link.score then
    (preconnect s link.url now, some .preconnectTy)
  else if (30 : ℝ) ≤ link.score then
    (dnsPrefetch s link.url now, some .dnsPrefetchTy)
  else
    (s, none)

/-- Embedding of `InstantNavService._handlePredictions(links, tabId)`:
fold the tier dispatch over the ranked batch, collecting the issued
directives in order. -/
noncomputable def handlePredictions (profile : Profile) (saveData : Bool) (now : Nat)
    (s : PrefetcherState) (links : List RankedLink) :
    PrefetcherState × List (DirectiveType × Url) :=
  links.foldl
    (fun acc link =>
      let r := handleLink profile saveData now acc.1 link
      (r.1, acc.2 ++ (match r.2 with
        | some d => [(d, link.url)]
        | none => [])))
    (s, [])

/-! ### Cursor tracker (tracker.js) -/

/-- Kinematic snapshot of the `CursorTracker`: `this.position` and
`this.velocity` (the only fields `getIntentionScore` reads). -/
structure TrackerState where
  posX : ℝ
  posY : ℝ
  vx : ℝ
  vy : ℝ

/-- `Math.sqrt(this.velocity.vx ** 2 + this.velocity.vy ** 2)`, the `speed`
field of `getData()`. -/
noncomputable def speedOf (t : TrackerState) : ℝ :=
  Real.sqrt (t.vx ^ 2 + t.vy ^ 2)

/-- Embedding of `CursorTracker.getIntentionScore(targetX, targetY)`. -/
noncomputable def getIntentionScore (t : TrackerState) (targetX targetY : ℝ) : ℝ :=
  let dx := targetX - t.posX
  let dy := targetY - t.posY
  let distance := Real.sqrt (dx * dx + dy * dy)
  if distance = 0 then 1
  else
    let toTargetX := dx / distance
    let toTargetY := dy / distance
    let speed := Real.sqrt (t.vx ^ 2 + t.vy ^ 2)
    if speed = 0 then 0
    else toTargetX * (t.vx / speed) + toTargetY * (t.vy / speed)

/-! ### Link predictor (predictor.js, `LinkPredictor`) -/

/-- Embedding of `LinkPredictor._calculateFittsScore(distance, width, height)`. -/
noncomputable def calculateFittsScore (distance width height : ℝ) : ℝ :=
  let minDimension := min width height
  if minDimension ≤ 0 then 0
  else
    let idx := Real.logb 2 (distance / minDimension + 1)
    max 0 (min 100 (100 - idx * 15))

/-- Which branch of `LinkPredictor._getContextScore` applies to the link
element: inside `main/article/[role=main]`, inside
`nav/footer/aside/[role=navigation]`, or neither (positional fallback). -/
inductive ContextKind where
  | mainContent
  | navRegion
  | positional
  deriving DecidableEq, Repr

/-- Embedding of `LinkPredictor._getContextScore(element)`; `top` and
`innerHeight` feed the positional fallback `50 + (1 - top/innerHeight) * 30`. -/
noncomputable def getContextScore (k : ContextKind) (top innerHeight : ℝ) : ℝ :=
  match k with
  | .mainContent => 80
  | .navRegion => 30
  | .positional => 50 + (1 - top / innerHeight) * 30

/-- Embedding of `LinkPredictor._getHistoryScore(url)`: the cached
collaborator value, defaulting to 40 until the asynchronous lookup lands. -/
def getHistoryScore (cache : List (String × ℝ)) (url : String) : ℝ :=
  match List.lookup url cache with
  | some v => v
  | none => 40

/-- Entry of `this.scores`: `{ score, timestamp }` (the factor breakdown is
carried by the source but never read back; it is omitted here). -/
structure ScoreRecord where
  score : ℝ
  timestamp : ℝ

/-- Embedding of `LinkPredictor._getGraceBoost(url, currentScore, cursorData)`.
Grace timers are modelled as `(url, expiry)` pairs; the JS stores a
`setTimeout` handle that fires `GRACE_PERIOD_MS = 200` ms later and deletes
the entry, so the expiry instant is `now + 200`. Returns the boost and the
updated timer collection. -/
noncomputable def getGraceBoost (timers : List (String × ℝ))
    (scores : List (String × ScoreRecord)) (url : String)
    (currentScore speed now : ℝ) : ℝ × List (String × ℝ) :=
  if speed < 50 ∧ 50 < currentScore then
    if (List.lookup url timers).isNone then
      match List.lookup url scores with
      | some existing =>
        if currentScore < existing.score then
          (existing.score - currentScore, timers ++ [(url, now + 200)])
        else (0, timers)
      | none => (0, timers)
    else (0, timers)
  else (0, timers)

/-- Expiry of a grace timer: the `setTimeout` callback runs
`this.graceTimers.delete(url)`. -/
def expireGraceTimer (timers : List (String × ℝ)) (url : String) : List (String × ℝ) :=
  timers.filter (fun e => !(e.1 == url))

/-- One candidate of the scoring batch: the catalog data
`{ url, rect, isVisible }` plus the context classification of its element. -/
structure Candidate where
  url : String
  left : ℝ
  top : ℝ
  width : ℝ
  height : ℝ
  isVisible : Bool
  ctx : ContextKind

/-- Mutable state threaded through the `for (const [element, data] of
this.links)` loop of `calculateScores`: the score table, the grace timers
and the `results` accumulator. -/
structure BatchState where
  scores : List (String × ScoreRecord)
  timers : List (String × ℝ)
  results : List (String × ℝ)

/-- Embedding of one iteration of the candidate loop of
`LinkPredictor.calculateScores(cursorData)`: skip invisible candidates and
candidates farther than 500px, compute the five weighted factors, apply the
grace boost, clamp at 100, and record/emit only when the final score
exceeds 30. `w` and `h` are `window.innerWidth` / `window.innerHeight`. -/
noncomputable def processCandidate (cursor : TrackerState) (w h now : ℝ)
    (hist : List (String × ℝ)) (st : BatchState) (c : Candidate) : BatchState :=
  if c.isVisible = false then st
  else
    let centerX := c.left + c.width / 2
    let centerY := c.top + c.height / 2
    let dx := centerX - cursor.posX
    let dy := centerY - cursor.posY
    let distanceSq := dx * dx + dy * dy
    if 250000 < distanceSq then st
    else
      let distance := Real.sqrt distanceSq
      let fittsScore := calculateFittsScore distance c.width c.height
      let intentionRaw := getIntentionScore cursor centerX centerY
      let intentionScore := max 0 (intentionRaw * 100)
      let maxDistance := Real.sqrt (w ^ 2 + h ^ 2)
      let proximityScore := max 0 (100 - distance / maxDistance * 100)
      let contextScore := getContextScore c.ctx c.top h
      let historyScore := getHistoryScore hist c.url
      let totalScore := fittsScore * 0.30 + intentionScore * 0.30 +
        proximityScore * 0.15 + contextScore * 0.10 + historyScore * 0.15
      let gb := getGraceBoost st.timers st.scores c.url totalScore (speedOf cursor) now
      let finalScore := min 100 (totalScore + gb.1)
      if 30 < finalScore then
        ⟨mapSet st.scores c.url ⟨finalScore, now⟩, gb.2, st.results ++ [(c.url, finalScore)]⟩
      else
        ⟨st.scores, gb.2, st.results⟩

/-- The candidate loop of `calculateScores`, started with an empty `results`
array. -/
noncomputable def runBatch (cursor : TrackerState) (w h now : ℝ)
    (hist : List (String × ℝ)) (scores0 : List (String × ScoreRecord))
    (timers0 : List (String × ℝ)) (cands : List Candidate) : BatchState :=
  cands.foldl (processCandidate cursor w h now hist) ⟨scores0, timers0, []⟩

/-- The message sent to the orchestrator after the loop:
`results.sort((a, b) => b.score - a.score)` followed by `slice(0, 5)`. -/
noncomputable def emittedOf (st : BatchState) : List (String × ℝ) :=
  (st.results.mergeSort (fun a b => decide (b.2 ≤ a.2))).take 5

/-! ### Concrete inputs used by the claim theorems -/

/-- A blacklisted (hence untrusted) domain, parsed from
"https://paypal.com/". -/
def paypalUrl : Url := ⟨"https://paypal.com", "/", "", "", "paypal.com"⟩

/-- Another blacklisted domain, parsed from "https://chase.com/". -/
def chaseUrl : Url := ⟨"https://chase.com", "/", "", "", "chase.com"⟩

/-- Parsed form of "https://a.com/x". -/
def aComXUrl : Url := ⟨"https://a.com", "/x", "", "", "a.com"⟩

/-- A prefetcher state with a single directive issued at time 0. -/
def staleState : PrefetcherState :=
  ⟨[("https://a.com/x", ⟨.prefetchTy, 0⟩)], [⟨.prefetchTy, "https://a.com/x", 0⟩]⟩

/-- Parsed form of "https://b.com/y". -/
def bComYUrl : Url := ⟨"https://b.com", "/y", "", "", "b.com"⟩

/-- Parsed form of "https://a.com/x" (C3 inputs). -/
def xUrl : Url := ⟨"https://a.com", "/x", "", "", "a.com"⟩

/-- Parsed form of "https://a.com/x/#sec": same normalization as `xUrl`
(trailing slash and fragment stripped), different raw string. -/
def xSlashUrl : Url := ⟨"https://a.com", "/x/", "", "#sec", "a.com"⟩

def c3State1 : PrefetcherState := prefetch initialPrefetcher xUrl false 0

def c3State2 : PrefetcherState := prefetch c3State1 xSlashUrl false 1000

/-- A sequence of speculation-rule insertions applied to the constructor
state. -/
def applyRules (rs : List SpecRule) : PrefetcherState :=
  rs.foldl (fun s r => addSpeculationRule s r.ty r.url r.timestamp) initialPrefetcher

/-- Ten rules already inserted, for exercising the eviction branch. -/
def c4TenState : PrefetcherState :=
  ⟨[], (List.range 10).map (fun i => ⟨.prefetchTy, "https://a.com/p", i⟩)⟩

/-- Spec wording of the C9 eco rule: "(discharging and battery < 20%) OR
data-saver enabled OR network in 2g, slow-2g OR memory-used fraction
> 0.8". Named after the spec for comparison with `recalculateMode`. -/
def specEcoCond (ctx : ContextData) : Prop :=
  (ctx.battery.charging = false ∧ ctx.battery.level < 0.2) ∨
  ctx.network.saveData = true ∨
  ctx.network.ty = "2g" ∨ ctx.network.ty = "slow-2g" ∨
  0.8 < ctx.memory.usedPercent

/-- Spec wording of the C9 turbo rule: "charging AND (network is 4g OR
downlink > 5) AND memory-used fraction < 0.5". -/
def specTurboCond (ctx : ContextData) : Prop :=
  ctx.battery.charging = true ∧
  (ctx.network.ty = "4g" ∨ 5 < ctx.network.downlink) ∧
  ctx.memory.usedPercent < 0.5

/-- The claim's scenario: discharging at 15%, wifi network, memory at 0.5. -/
def autoScenarioCtx : ContextData := ⟨⟨false, 0.15⟩, ⟨"wifi", 10, false⟩, ⟨0.5⟩⟩

/-- Cursor resting at the origin with zero velocity (C5 inputs). -/
noncomputable def c5Cursor : TrackerState := ⟨0, 0, 0, 0⟩

/-- A visible navigation-region link of width 6 and height 0 centered at
(3, 4): its Fitts score is 0 (degenerate dimension), its intention and
proximity scores are 0, so its final score is
30 · 0.10 + 40 · 0.15 = 9 ≤ 30. -/
noncomputable def c5Cand : Candidate := ⟨"https://b.com/p", 0, 4, 6, 0, true, .navRegion⟩

/-- A score table holding a previous record (score 50) for the C5 candidate. -/
noncomputable def c5Table : List (String × ScoreRecord) := [("https://b.com/p", ⟨50, 0⟩)]
/-! ### Association-list helper lemmas -/

theorem lookup_eq_none_of_not_mem {A : Type} {k : String} {l : List (String × A)}
    (h : k ∉ l.map Prod.fst) : List.lookup k l = none := by
  induction l with
  | nil => rfl
  | cons hd tl ih =>
    obtain ⟨k', v'⟩ := hd
    simp only [List.map_cons, List.mem_cons, not_or] at h
    have hb : (k == k') = false := by simpa using h.1
    simp only [List.lookup, hb]
    exact ih h.2

theorem lookup_filter_none {A : Type} {k : String} {v : A} {l : List (String × A)}
    {p : String × A → Bool} (hnd : (l.map Prod.fst).Nodup)
    (hl : List.lookup k l = some v) (hp : p (k, v) = false) :
    List.lookup k (l.filter p) = none := by
  induction l with
  | nil => simp at hl
  | cons hd tl ih =>
    obtain ⟨k', v'⟩ := hd
    simp only [List.map_cons, List.nodup_cons] at hnd
    by_cases hk : k = k'
    · subst hk
      have hb : (k == k) = true := by simp
      simp only [List.lookup, hb] at hl
      obtain rfl : v' = v := by injection hl
      rw [List.filter_cons, if_neg (by simp [hp])]
      refine lookup_eq_none_of_not_mem (fun hmem => hnd.1 ?_)
      obtain ⟨⟨a, b⟩, hab, rfl⟩ := List.mem_map.mp hmem
      exact List.mem_map.mpr ⟨(a, b), List.mem_of_mem_filter hab, rfl⟩
    · have hb : (k == k') = false := by simpa using hk
      simp only [List.lookup, hb] at hl
      rw [List.filter_cons]
      split_ifs with hpc
      · simp only [List.lookup, hb]
        exact ih hnd.2 hl
      · exact ih hnd.2 hl

theorem mem_mapSet {A : Type} {m : List (String × A)} {k : String} {v : A}
    {q : String × A} (h : q ∈ mapSet m k v) : q ∈ m ∨ q = (k, v) := by
  induction m with
  | nil => simp only [mapSet, List.mem_singleton] at h; exact Or.inr h
  | cons hd tl ih =>
    obtain ⟨k', v'⟩ := hd
    by_cases hk : k' = k
    · subst hk
      have hb : (k' == k') = true := by simp
      simp only [mapSet, hb, if_true, List.mem_cons] at h
      rcases h with h | h
      · exact Or.inr h
      · exact Or.inl (List.mem_cons_of_mem _ h)
    · have hb : (k' == k) = false := by simpa using hk
      simp only [mapSet, hb, Bool.false_eq_true, if_false, List.mem_cons] at h
      rcases h with h | h
      · exact Or.inl (by simp [h])
      · rcases ih h with h' | h'
        · exact Or.inl (List.mem_cons_of_mem _ h')
        · exact Or.inr h'

theorem lookup_mapSet_self {A : Type} (m : List (String × A)) (k : String) (v : A) :
    List.lookup k (mapSet m k v) = some v := by
  induction m with
  | nil => simp [mapSet, List.lookup]
  | cons hd tl ih =>
    obtain ⟨k', v'⟩ := hd
    by_cases hk : k' = k
    · subst hk
      simp [mapSet, List.lookup]
    · have hb : (k' == k) = false := by simpa using hk
      have hb2 : (k == k') = false := by simpa using Ne.symm hk
      simp [mapSet, List.lookup, hb, hb2, ih]

theorem lookup_mapSet_ne {A : Type} (m : List (String × A)) {k k' : String} (v : A)
    (h : k' ≠ k) : List.lookup k' (mapSet m k v) = List.lookup k' m := by
  induction m with
  | nil =>
    have hb : (k' == k) = false := by simpa using h
    simp [mapSet, List.lookup, hb]
  | cons hd tl ih =>
    obtain ⟨k0, v0⟩ := hd
    by_cases hk : k0 = k
    · subst hk
      have hb : (k' == k0) = false := by simpa using h
      simp [mapSet, List.lookup, hb]
    · have hb : (k0 == k) = false := by simpa using hk
      rcases hc : k' == k0 with _ | _
      · simp [mapSet, List.lookup, hb, hc, ih]
      · simp [mapSet, List.lookup, hb, hc]

theorem not_mem_of_lookup_eq_none {A : Type} {k : String} {l : List (String × A)}
    (h : List.lookup k l = none) : k ∉ l.map Prod.fst := by
  induction l with
  | nil => simp
  | cons hd tl ih =>
    obtain ⟨k', v'⟩ := hd
    rcases hb : k == k' with _ | _
    · simp only [List.lookup, hb] at h
      simp only [List.map_cons, List.mem_cons, not_or]
      exact ⟨by simpa using hb, ih h⟩
    · simp only [List.lookup, hb] at h
      simp at h

/-! ### Real-arithmetic helper lemmas -/

theorem sqrt_twentyfive : Real.sqrt 25 = 5 := by
  rw [show (25:ℝ) = 5 ^ 2 by norm_num, Real.sqrt_sq (by norm_num : (0:ℝ) ≤ 5)]

theorem dist_sq_sqrt_eq_zero_iff (a b : ℝ) :
    Real.sqrt (a * a + b * b) = 0 ↔ a = 0 ∧ b = 0 := by
  rw [Real.sqrt_eq_zero']
  constructor
  · intro h
    constructor <;> nlinarith [mul_self_nonneg a, mul_self_nonneg b]
  · rintro ⟨rfl, rfl⟩
    norm_num

theorem dot_unit_bounds (dx dy vx vy : ℝ)
    (hd : Real.sqrt (dx * dx + dy * dy) ≠ 0) (hs : Real.sqrt (vx ^ 2 + vy ^ 2) ≠ 0) :
    -1 ≤ dx / Real.sqrt (dx * dx + dy * dy) * (vx / Real.sqrt (vx ^ 2 + vy ^ 2)) +
        dy / Real.sqrt (dx * dx + dy * dy) * (vy / Real.sqrt (vx ^ 2 + vy ^ 2)) ∧
      dx / Real.sqrt (dx * dx + dy * dy) * (vx / Real.sqrt (vx ^ 2 + vy ^ 2)) +
        dy / Real.sqrt (dx * dx + dy * dy) * (vy / Real.sqrt (vx ^ 2 + vy ^ 2)) ≤ 1 := by
  set D := Real.sqrt (dx * dx + dy * dy) with hDdef
  set S := Real.sqrt (vx ^ 2 + vy ^ 2) with hSdef
  have hDpos : 0 < D := lt_of_le_of_ne (Real.sqrt_nonneg _) (Ne.symm hd)
  have hSpos : 0 < S := lt_of_le_of_ne (Real.sqrt_nonneg _) (Ne.symm hs)
  have hDD : D * D = dx * dx + dy * dy := by
    have := Real.sq_sqrt (show (0:ℝ) ≤ dx * dx + dy * dy by
      nlinarith [mul_self_nonneg dx, mul_self_nonneg dy])
    rw [hDdef]
    nlinarith [this]
  have hSS : S * S = vx ^ 2 + vy ^ 2 := by
    have := Real.sq_sqrt (show (0:ℝ) ≤ vx ^ 2 + vy ^ 2 by positivity)
    rw [hSdef]
    nlinarith [this]
  have h1 : dx / D * (dx / D) + dy / D * (dy / D) = 1 := by
    have he : dx / D * (dx / D) + dy / D * (dy / D) = (dx * dx + dy * dy) / (D * D) := by
      ring
    rw [he, ← hDD, div_self (mul_pos hDpos hDpos).ne']
  have h2 : vx / S * (vx / S) + vy / S * (vy / S) = 1 := by
    have he : vx / S * (vx / S) + vy / S * (vy / S) = (vx ^ 2 + vy ^ 2) / (S * S) := by
      ring
    rw [he, ← hSS, div_self (mul_pos hSpos hSpos).ne']
  constructor
  · nlinarith [sq_nonneg (dx / D + vx / S), sq_nonneg (dy / D + vy / S)]
  · nlinarith [sq_nonneg (dx / D - vx / S), sq_nonneg (dy / D - vy / S)]

/-! ### Batch-loop helper lemmas -/

theorem processCandidate_scores_mem (cursor : TrackerState) (w h now : ℝ)
    (hist : List (String × ℝ)) (st : BatchState) (c : Candidate)
    {q : String × ScoreRecord}
    (hq : q ∈ (processCandidate cursor w h now hist st c).scores) :
    q ∈ st.scores ∨ (30 < q.2.score ∧ q.2.score ≤ 100 ∧ q.2.timestamp = now ∧ q.1 = c.url) := by
  simp only [processCandidate] at hq
  split_ifs at hq with h1 h2 h3
  · exact Or.inl hq
  · exact Or.inl hq
  · rcases mem_mapSet hq with h | h
    · exact Or.inl h
    · subst h
      exact Or.inr ⟨h3, min_le_left _ _, rfl, rfl⟩
  · exact Or.inl hq

theorem processCandidate_results_mem (cursor : TrackerState) (w h now : ℝ)
    (hist : List (String × ℝ)) (st : BatchState) (c : Candidate)
    {r : String × ℝ}
    (hr : r ∈ (processCandidate cursor w h now hist st c).results) :
    r ∈ st.results ∨ (30 < r.2 ∧ r.2 ≤ 100) := by
  simp only [processCandidate] at hr
  split_ifs at hr with h1 h2 h3
  · exact Or.inl hr
  · exact Or.inl hr
  · rcases List.mem_append.mp hr with h | h
    · exact Or.inl h
    · obtain rfl := List.mem_singleton.mp h
      exact Or.inr ⟨h3, min_le_left _ _⟩
  · exact Or.inl hr

theorem batchLoop_scores_mem (cursor : TrackerState) (w h now : ℝ)
    (hist : List (String × ℝ)) (cands : List Candidate) (st : BatchState)
    {q : String × ScoreRecord}
    (hq : q ∈ (cands.foldl (processCandidate cursor w h now hist) st).scores) :
    q ∈ st.scores ∨ (30 < q.2.score ∧ q.2.score ≤ 100) := by
  induction cands generalizing st with
  | nil => exact Or.inl hq
  | cons c t ih =>
    rcases ih _ hq with hmem | hnew
    · rcases processCandidate_scores_mem cursor w h now hist st c hmem with h' | h'
      · exact Or.inl h'
      · exact Or.inr ⟨h'.1, h'.2.1⟩
    · exact Or.inr hnew

theorem batchLoop_results_mem (cursor : TrackerState) (w h now : ℝ)
    (hist : List (String × ℝ)) (cands : List Candidate) (st : BatchState)
    {r : String × ℝ}
    (hr : r ∈ (cands.foldl (processCandidate cursor w h now hist) st).results) :
    r ∈ st.results ∨ (30 < r.2 ∧ r.2 ≤ 100) := by
  induction cands generalizing st with
  | nil => exact Or.inl hr
  | cons c t ih =>
    rcases ih _ hr with hmem | hnew
    · exact processCandidate_results_mem cursor w h now hist st c hmem
    · exact Or.inr hnew

/-- Evaluation of the C5 candidate: its final score is 9, below the
recording threshold, so the batch state is returned unchanged. -/
theorem c5_eval :
    processCandidate c5Cursor 3 4 7 [] ⟨c5Table, [], []⟩ c5Cand = ⟨c5Table, [], []⟩ := by
  unfold processCandidate c5Cursor c5Cand
  norm_num [calculateFittsScore, getIntentionScore, getContextScore, getHistoryScore,
    getGraceBoost, speedOf, sqrt_twentyfive, List.lookup, min_def, max_def]

/-! ### Claim C1 -/

/-- C1: the claim states that `_handlePredictions` issues `prerender` only
when Trust permits prerender and `prefetch` only when Trust permits
prefetch. The orchestrator never consults the trust list: with the
balanced profile it dispatches a `prerender` for a score-90 candidate and
a `prefetch` for a score-65 candidate on blacklisted domains for which
`canPrerender` and `canPrefetch` are both false. -/
theorem c1_trust_gate_missing :
    (handlePredictions (profiles .balanced) false 0 initialPrefetcher
        [⟨paypalUrl, 90⟩, ⟨chaseUrl, 65⟩]).2 =
      [(DirectiveType.prerenderTy, paypalUrl), (DirectiveType.prefetchTy, chaseUrl)] ∧
    canPrerender [] paypalUrl = false ∧
    canPrefetch [] chaseUrl = false := by
  refine ⟨?_, by decide, by decide⟩
  unfold handlePredictions handleLink
  norm_num [profiles]

/-! ### Claim C2 -/

/-- C2 counterexample: a directive issued at time 0 and queried at time
61000 (61s later, with no interleaving insertion) is still reported by
`wasPrefetched`, which takes no clock at all; and a mutation of the
active-directive collection at time 61000 (`_addSpeculationRule`, and
`_track` for the map) purges nothing: the 61s-old rule and map entry both
survive. -/
theorem c2_counterexample :
    wasPrefetched staleState aComXUrl = true ∧
    (addSpeculationRule staleState .prefetchTy "https://b.com/y" 61000).activeSpeculationRules =
      [⟨.prefetchTy, "https://a.com/x", 0⟩, ⟨.prefetchTy, "https://b.com/y", 61000⟩] ∧
    mapHas (track staleState bComYUrl .prefetchTy 61000).prefetchedUrls
      "https://a.com/x" = true := by decide

/-- C2 amended: no purge happens on query or on mutation; a directive older
than 60s disappears only when `clearOldPrefetches` is explicitly invoked,
which removes every entry with `now - timestamp > 60000` (so the stale URL
is then absent from `wasPrefetched`, and every surviving entry is at most
60s old). -/
theorem c2_expiry_only_on_explicit_sweep (s : PrefetcherState) (u : Url)
    (e : PrefetchEntry) (now : Nat)
    (hnd : (s.prefetchedUrls.map Prod.fst).Nodup)
    (h1 : List.lookup (normalize u) s.prefetchedUrls = some e)
    (h2 : 60000 < now - e.timestamp) :
    wasPrefetched (clearOldPrefetches s now 60000) u = false ∧
    ∀ p ∈ (clearOldPrefetches s now 60000).prefetchedUrls,
      now - p.2.timestamp ≤ 60000 := by
  constructor
  · have : List.lookup (normalize u)
        (s.prefetchedUrls.filter (fun e => decide (now - e.2.timestamp ≤ 60000))) = none := by
      refine lookup_filter_none hnd h1 ?_
      simp only [decide_eq_false_iff_not, not_le]
      exact h2
    simp only [wasPrefetched, clearOldPrefetches, mapHas]
    rw [this]
    rfl
  · intro p hp
    simp only [clearOldPrefetches, List.mem_filter, decide_eq_true_eq] at hp
    exact hp.2

/-- C2 witness: the amended theorem applied to the concrete stale state. -/
theorem c2_witness :
    wasPrefetched (clearOldPrefetches staleState 61000 60000) aComXUrl = false :=
  (c2_expiry_only_on_explicit_sweep staleState aComXUrl ⟨.prefetchTy, 0⟩ 61000
    (by decide) (by decide) (by decide)).1

/-! ### Claim C3 -/

/-- C3 counterexample: the issuance no-op check of `prefetch` keys off the
raw URL string, not the normalized URL. "https://a.com/x/#sec" normalizes
to "https://a.com/x", which already has an active directive
(`wasPrefetched` is true), yet issuing it is not a no-op: a second
speculation rule is pushed for the same normalized URL. -/
theorem c3_counterexample :
    normalize xSlashUrl = normalize xUrl ∧
    wasPrefetched c3State1 xSlashUrl = true ∧
    c3State2 ≠ c3State1 ∧
    c3State2.activeSpeculationRules.map SpecRule.url =
      ["https://a.com/x", "https://a.com/x/#sec"] := by decide

/-- C3 amended: the no-op guard of `prefetch`/`prerender` fires exactly when
the raw URL string itself is a key of the tracked map (whose keys are
normalized URLs), so dedup at issuance is keyed by the raw URL; issuance
for a raw URL that is already a tracked key leaves the state completely
unchanged. -/
theorem c3_noop_keyed_by_raw_url (s : PrefetcherState) (u : Url) (sd : Bool) (now : Nat)
    (h : mapHas s.prefetchedUrls (serialize u) = true) :
    prefetch s u sd now = s ∧ prerender s u sd now = s := by
  unfold prefetch prerender
  rw [h]
  simp

/-- C3 witness: the amended no-op property at a concrete state whose tracked
key equals the raw URL. -/
theorem c3_witness :
    prefetch ⟨[("https://a.com/x", ⟨.prefetchTy, 0⟩)], []⟩ xUrl false 5 =
      ⟨[("https://a.com/x", ⟨.prefetchTy, 0⟩)], []⟩ :=
  (c3_noop_keyed_by_raw_url _ xUrl false 5 (by decide)).1

/-! ### Claim C4 -/

theorem addSpeculationRule_length_le (s : PrefetcherState) (ty : DirectiveType)
    (url : String) (now : Nat) (h : s.activeSpeculationRules.length ≤ 10) :
    (addSpeculationRule s ty url now).activeSpeculationRules.length ≤ 10 := by
  unfold addSpeculationRule maxRules
  by_cases hc : 10 ≤ s.activeSpeculationRules.length
  · rw [if_pos hc]
    unfold removeOldestRule
    rcases hr : s.activeSpeculationRules with _ | ⟨a, l⟩
    · simp [hr] at hc
    · rw [hr] at h
      simp only [List.length_cons] at h
      simp only [List.length_append, List.length_cons, List.length_nil]
      omega
  · rw [if_neg hc]
    simp only [List.length_append, List.length_cons, List.length_nil]
    omega

theorem applyRules_aux (rs : List SpecRule) (s : PrefetcherState)
    (h : s.activeSpeculationRules.length ≤ 10) :
    (rs.foldl (fun s r => addSpeculationRule s r.ty r.url r.timestamp)
      s).activeSpeculationRules.length ≤ 10 := by
  induction rs generalizing s with
  | nil => exact h
  | cons r t ih =>
    exact ih _ (addSpeculationRule_length_le s r.ty r.url r.timestamp h)

/-- C4: starting from the constructor state, no sequence of insertions makes
the active-rule collection exceed 10 entries, and an insertion performed at
capacity 10 removes exactly the earliest-inserted rule (the list head)
before appending the new one. -/
theorem c4_capacity_and_fifo_eviction :
    (∀ rs : List SpecRule, (applyRules rs).activeSpeculationRules.length ≤ 10) ∧
    (∀ (s : PrefetcherState) (ty : DirectiveType) (url : String) (now : Nat),
      s.activeSpeculationRules.length = 10 →
      (addSpeculationRule s ty url now).activeSpeculationRules =
        s.activeSpeculationRules.drop 1 ++ [⟨ty, url, now⟩]) := by
  constructor
  · intro rs
    exact applyRules_aux rs initialPrefetcher (by simp [initialPrefetcher])
  · intro s ty url now h
    unfold addSpeculationRule maxRules
    rw [if_pos (by omega)]
    unfold removeOldestRule
    rcases hr : s.activeSpeculationRules with _ | ⟨a, l⟩
    · simp [hr] at h
    · simp [hr]

/-- C4 witness: capacity bound after eleven concrete insertions, and the
eviction equation at a concrete state of size exactly 10. -/
theorem c4_witness :
    (applyRules ((List.range 11).map
      (fun i => ⟨.prefetchTy, "https://a.com/q", i⟩))).activeSpeculationRules.length ≤ 10 ∧
    (addSpeculationRule c4TenState .prerenderTy "https://b.com/r" 99).activeSpeculationRules =
      c4TenState.activeSpeculationRules.drop 1 ++ [⟨.prerenderTy, "https://b.com/r", 99⟩] :=
  ⟨c4_capacity_and_fifo_eviction.1 _,
    c4_capacity_and_fifo_eviction.2 c4TenState .prerenderTy "https://b.com/r" 99 (by decide)⟩

/-! ### Claim C5 -/

/-- C5 counterexample: a batch processes a visible candidate whose final
score evaluates to 9 (≤ 30) while the table holds a previous record
(score 50) for the same URL. After the batch the record is still present
(the claim says it is removed); the candidate is merely not re-recorded
and not emitted. -/
theorem c5_counterexample :
    (runBatch c5Cursor 3 4 7 [] c5Table [] [c5Cand]).scores = c5Table ∧
    List.lookup c5Cand.url (runBatch c5Cursor 3 4 7 [] c5Table [] [c5Cand]).scores =
      some ⟨50, 0⟩ ∧
    (runBatch c5Cursor 3 4 7 [] c5Table [] [c5Cand]).results = [] := by
  have h1 : runBatch c5Cursor 3 4 7 [] c5Table [] [c5Cand] = ⟨c5Table, [], []⟩ := by
    unfold runBatch
    rw [List.foldl_cons, List.foldl_nil]
    exact c5_eval
  rw [h1]
  refine ⟨rfl, ?_, rfl⟩
  simp [c5Table, c5Cand, List.lookup]

/-- C5 amended: a scoring batch never deletes a score record. Processing a
candidate leaves every other key of the table untouched, and the
candidate's own entry is either left exactly as it was (in particular when
the final score is ≤ 30) or overwritten by a fresh record whose score
exceeds 30; so only candidates with final score > 30 are recorded, but a
stale record for a low-scoring candidate survives the batch. -/
theorem c5_low_scores_not_recorded (cursor : TrackerState) (w h now : ℝ)
    (hist : List (String × ℝ)) (st : BatchState) (c : Candidate) :
    (∀ k, k ≠ c.url →
      List.lookup k (processCandidate cursor w h now hist st c).scores =
        List.lookup k st.scores) ∧
    (List.lookup c.url (processCandidate cursor w h now hist st c).scores =
        List.lookup c.url st.scores ∨
      ∃ r : ScoreRecord,
        List.lookup c.url (processCandidate cursor w h now hist st c).scores = some r ∧
        30 < r.score ∧ r.timestamp = now) := by
  constructor
  · intro k hk
    simp only [processCandidate]
    split_ifs with h1 h2 h3
    · rfl
    · rfl
    · exact lookup_mapSet_ne _ _ hk
    · rfl
  · simp only [processCandidate]
    split_ifs with h1 h2 h3
    · exact Or.inl rfl
    · exact Or.inl rfl
    · exact Or.inr ⟨_, lookup_mapSet_self _ _ _, h3, rfl⟩
    · exact Or.inl rfl

/-- C5 witness: the amended theorem applied to the concrete batch of the
counterexample, at a key different from the candidate's URL. -/
theorem c5_witness :
    List.lookup "https://other.com/q"
        (processCandidate c5Cursor 3 4 7 [] ⟨c5Table, [], []⟩ c5Cand).scores =
      List.lookup "https://other.com/q" c5Table :=
  (c5_low_scores_not_recorded c5Cursor 3 4 7 [] ⟨c5Table, [], []⟩ c5Cand).1
    "https://other.com/q" (by decide)

/-! ### Claim C6 -/

/-- C6: at most one grace timer exists per URL. A qualifying trigger for a
URL that already has an active timer returns the timer collection
unchanged (no second timer, no extension of the first); any trigger
preserves key-uniqueness of the timer collection; and timer expiry
preserves it as well. -/
theorem c6_one_grace_timer_per_url :
    (∀ (timers : List (String × ℝ)) (scores : List (String × ScoreRecord))
        (url : String) (currentScore speed now : ℝ),
      mapHas timers url = true →
      (getGraceBoost timers scores url currentScore speed now).2 = timers) ∧
    (∀ (timers : List (String × ℝ)) (scores : List (String × ScoreRecord))
        (url : String) (currentScore speed now : ℝ),
      (timers.map Prod.fst).Nodup →
      (((getGraceBoost timers scores url currentScore speed now).2).map Prod.fst).Nodup) ∧
    (∀ (timers : List (String × ℝ)) (url : String),
      (timers.map Prod.fst).Nodup →
      ((expireGraceTimer timers url).map Prod.fst).Nodup) := by
  refine ⟨?_, ?_, ?_⟩
  · intro timers scores url cs speed now h
    have h' : (List.lookup url timers).isNone = false := by
      rcases hl : List.lookup url timers with _ | _ <;> simp_all [mapHas]
    unfold getGraceBoost
    split_ifs with h1 h2
    · rw [h'] at h2
      exact absurd h2 (by simp)
    · rfl
    · rfl
  · intro timers scores url cs speed now hnd
    unfold getGraceBoost
    split_ifs with h1 h2
    · rcases hs : List.lookup url scores with _ | e
      · simp only [hs]
        exact hnd
      · simp only [hs]
        split_ifs with h3
        · have hnone : List.lookup url timers = none := by
            rcases hl : List.lookup url timers with _ | _ <;> simp_all
          have hnm := not_mem_of_lookup_eq_none hnone
          rw [List.map_append, List.nodup_append]
          refine ⟨hnd, by simp, ?_⟩
          intro a ha hb
          simp only [List.map_cons, List.map_nil, List.mem_singleton] at hb
          subst hb
          exact hnm ha
        · exact hnd
    · exact hnd
    · exact hnd
  · intro timers url hnd
    exact hnd.sublist ((List.filter_sublist _).map _)

/-- C6 witness: a second qualifying trigger for a URL with an active timer
leaves the collection unchanged, and a fresh trigger for a different URL
keeps the keys unique. -/
theorem c6_witness :
    (getGraceBoost [("https://a.com/x", (300:ℝ))] [] "https://a.com/x" 60 10 0).2 =
      [("https://a.com/x", (300:ℝ))] ∧
    (((getGraceBoost [("https://a.com/x", (300:ℝ))] [] "https://b.com/y" 60 10 0).2).map
        Prod.fst).Nodup :=
  ⟨c6_one_grace_timer_per_url.1 _ _ _ _ _ _ (by decide),
    c6_one_grace_timer_per_url.2.1 _ _ _ _ _ _ (by simp)⟩

/-! ### Claim C7 -/

/-- C7: if every record of the incoming score table lies in [0, 100], then
after a scoring batch every record of the table and every candidate score
emitted to the orchestrator lies in [0, 100]: fresh records pass the
`> 30` recording guard and are clamped at 100 by `min`. -/
theorem c7_scores_in_range (cursor : TrackerState) (w h now : ℝ)
    (hist : List (String × ℝ)) (scores0 : List (String × ScoreRecord))
    (timers0 : List (String × ℝ)) (cands : List Candidate)
    (h0 : ∀ q ∈ scores0, 0 ≤ q.2.score ∧ q.2.score ≤ 100) :
    (∀ q ∈ (runBatch cursor w h now hist scores0 timers0 cands).scores,
      0 ≤ q.2.score ∧ q.2.score ≤ 100) ∧
    (∀ r ∈ emittedOf (runBatch cursor w h now hist scores0 timers0 cands),
      0 ≤ r.2 ∧ r.2 ≤ 100) := by
  constructor
  · intro q hq
    rcases batchLoop_scores_mem cursor w h now hist cands _ hq with hmem | hnew
    · exact h0 q hmem
    · exact ⟨by linarith [hnew.1], hnew.2⟩
  · intro r hr
    have hr' : r ∈ (runBatch cursor w h now hist scores0 timers0 cands).results :=
      List.mem_mergeSort.mp (List.take_subset _ _ hr)
    rcases batchLoop_results_mem cursor w h now hist cands _ hr' with hmem | hnew
    · simp at hmem
    · exact ⟨by linarith [hnew.1], hnew.2⟩

/-- C7 witness: the range property applied to a concrete one-record table
and a batch whose candidate is skipped as invisible. -/
theorem c7_witness :
    0 ≤ (("https://b.com/p", (⟨50, 0⟩ : ScoreRecord)) : String × ScoreRecord).2.score ∧
    (("https://b.com/p", (⟨50, 0⟩ : ScoreRecord)) : String × ScoreRecord).2.score ≤ 100 :=
  (c7_scores_in_range ⟨0, 0, 0, 0⟩ 3 4 7 [] [("https://b.com/p", ⟨50, 0⟩)] [] []
      (by
        intro q hq
        rw [List.mem_singleton] at hq
        subst hq
        norm_num)).1
    ("https://b.com/p", ⟨50, 0⟩) (by simp [runBatch])

/-! ### Claim C8 -/

/-- C8 counterexample: the claim says `getIntentionScore` returns 1 if and
only if the target equals the current position. A cursor at the origin
moving with velocity (3, 4) straight at the target (3, 4) also scores
exactly 1, so the "only if" direction fails. -/
theorem c8_counterexample :
    getIntentionScore ⟨0, 0, 3, 4⟩ 3 4 = 1 ∧
    ¬ ((3 : ℝ) = (⟨0, 0, 3, 4⟩ : TrackerState).posX ∧
        (4 : ℝ) = (⟨0, 0, 3, 4⟩ : TrackerState).posY) := by
  constructor
  · simp only [getIntentionScore]
    norm_num [sqrt_twentyfive]
  · norm_num

/-- C8 amended: `getIntentionScore` returns 1 if the target equals the
current position (but not only then: it also returns 1 when the velocity
points exactly at a distinct target); it returns 0 when the speed is zero
and the target is distinct; otherwise it returns the dot product of the
unit vector toward the target and the unit velocity vector, which lies in
[-1, 1]. -/
theorem c8_intention_score (t : TrackerState) (tx ty : ℝ) :
    ((tx = t.posX ∧ ty = t.posY) → getIntentionScore t tx ty = 1) ∧
    (¬ (tx = t.posX ∧ ty = t.posY) → speedOf t = 0 → getIntentionScore t tx ty = 0) ∧
    (¬ (tx = t.posX ∧ ty = t.posY) → speedOf t ≠ 0 →
      (getIntentionScore t tx ty =
        (tx - t.posX) /
            Real.sqrt ((tx - t.posX) * (tx - t.posX) + (ty - t.posY) * (ty - t.posY)) *
            (t.vx / speedOf t) +
          (ty - t.posY) /
            Real.sqrt ((tx - t.posX) * (tx - t.posX) + (ty - t.posY) * (ty - t.posY)) *
            (t.vy / speedOf t) ∧
        -1 ≤ getIntentionScore t tx ty ∧ getIntentionScore t tx ty ≤ 1)) := by
  have hiff := dist_sq_sqrt_eq_zero_iff (tx - t.posX) (ty - t.posY)
  refine ⟨?_, ?_, ?_⟩
  · intro h
    have hd0 : Real.sqrt ((tx - t.posX) * (tx - t.posX) + (ty - t.posY) * (ty - t.posY)) = 0 := by
      rw [h.1, h.2]
      norm_num
    simp only [getIntentionScore]
    rw [if_pos hd0]
  · intro hne hs
    have hd : Real.sqrt ((tx - t.posX) * (tx - t.posX) + (ty - t.posY) * (ty - t.posY)) ≠ 0 := by
      intro h0
      obtain ⟨h1, h2⟩ := hiff.mp h0
      exact hne ⟨by linarith, by linarith⟩
    simp only [getIntentionScore]
    rw [if_neg hd, if_pos (by simpa [speedOf] using hs)]
  · intro hne hs
    have hd : Real.sqrt ((tx - t.posX) * (tx - t.posX) + (ty - t.posY) * (ty - t.posY)) ≠ 0 := by
      intro h0
      obtain ⟨h1, h2⟩ := hiff.mp h0
      exact hne ⟨by linarith, by linarith⟩
    have hs' : Real.sqrt (t.vx ^ 2 + t.vy ^ 2) ≠ 0 := by simpa [speedOf] using hs
    have hred : getIntentionScore t tx ty =
        (tx - t.posX) /
            Real.sqrt ((tx - t.posX) * (tx - t.posX) + (ty - t.posY) * (ty - t.posY)) *
            (t.vx / Real.sqrt (t.vx ^ 2 + t.vy ^ 2)) +
          (ty - t.posY) /
            Real.sqrt ((tx - t.posX) * (tx - t.posX) + (ty - t.posY) * (ty - t.posY)) *
            (t.vy / Real.sqrt (t.vx ^ 2 + t.vy ^ 2)) := by
      simp only [getIntentionScore]
      rw [if_neg hd, if_neg hs']
    have hb := dot_unit_bounds (tx - t.posX) (ty - t.posY) t.vx t.vy hd hs'
    refine ⟨by rw [hred]; rfl, ?_, ?_⟩
    · rw [hred]
      exact hb.1
    · rw [hred]
      exact hb.2

/-- C8 witness: the amended theorem at three concrete states — target on
the cursor, a stationary cursor, and a moving cursor with a distinct
target. -/
theorem c8_witness :
    getIntentionScore ⟨0, 0, 0, 0⟩ 0 0 = 1 ∧
    getIntentionScore ⟨5, 5, 0, 0⟩ 0 0 = 0 ∧
    (-1 ≤ getIntentionScore ⟨0, 0, 3, 4⟩ 3 0 ∧ getIntentionScore ⟨0, 0, 3, 4⟩ 3 0 ≤ 1) :=
  ⟨(c8_intention_score ⟨0, 0, 0, 0⟩ 0 0).1 (by norm_num),
    (c8_intention_score ⟨5, 5, 0, 0⟩ 0 0).2.1 (by norm_num) (by norm_num [speedOf]),
    ((c8_intention_score ⟨0, 0, 3, 4⟩ 3 0).2.2 (by norm_num)
      (by norm_num [speedOf, sqrt_twentyfive])).2⟩

/-! ### Claim C9 -/

theorem recalc_scenario_eco : recalculateMode autoScenarioCtx = .eco := by
  unfold recalculateMode autoScenarioCtx
  norm_num

/-- C9: in auto mode the effective profile is eco exactly under the spec's
eco conditions, turbo exactly when no eco condition holds and the turbo
conditions do, and balanced otherwise; in particular the scenario
(discharging at 15%, wifi) resolves to eco, the battery rule outranking
the network rule. -/
theorem c9_auto_mode_rule_priority :
    (∀ ctx : ContextData,
      (recalculateMode ctx = .eco ↔ specEcoCond ctx) ∧
      (recalculateMode ctx = .turbo ↔ (¬ specEcoCond ctx ∧ specTurboCond ctx)) ∧
      (recalculateMode ctx = .balanced ↔ (¬ specEcoCond ctx ∧ ¬ specTurboCond ctx))) ∧
    recalculateMode autoScenarioCtx = .eco ∧
    getProfile .auto (recalculateMode autoScenarioCtx) = profiles .eco := by
  refine ⟨fun ctx => ?_, recalc_scenario_eco, ?_⟩
  · unfold recalculateMode specEcoCond specTurboCond
    split_ifs with h1 h2 <;> simp_all
  · rw [recalc_scenario_eco]
    rfl

/-! ### Claim C10 -/

/-- C10: whenever the grace boost for a candidate is nonzero, it equals the
previously stored score minus the new composite, the stored score exceeds
both the new composite and the recording threshold 30, and the clamped
final score `min 100 (total + boost)` is exactly the stored score (the
clamp never truncates because stored scores are ≤ 100 — which the second
part establishes for every batch run from a table of scores ≤ 100). -/
theorem c10_grace_boost_restores_previous :
    (∀ (timers : List (String × ℝ)) (scores : List (String × ScoreRecord))
        (url : String) (total speed now : ℝ) (rec : ScoreRecord),
      List.lookup url scores = some rec → rec.score ≤ 100 →
      (getGraceBoost timers scores url total speed now).1 ≠ 0 →
      min 100 (total + (getGraceBoost timers scores url total speed now).1) = rec.score ∧
        30 < rec.score) ∧
    (∀ (cursor : TrackerState) (w h now : ℝ) (hist : List (String × ℝ))
        (scores0 : List (String × ScoreRecord)) (timers0 : List (String × ℝ))
        (cands : List Candidate),
      (∀ q ∈ scores0, q.2.score ≤ 100) →
      ∀ q ∈ (runBatch cursor w h now hist scores0 timers0 cands).scores,
        q.2.score ≤ 100) := by
  constructor
  · intro timers scores url total speed now rec hprev hle hnz
    unfold getGraceBoost at hnz ⊢
    split_ifs at hnz ⊢ with h1 h2
    · rw [hprev] at hnz ⊢
      simp only at hnz ⊢
      split_ifs at hnz ⊢ with h3
      · constructor
        · rw [show total + (rec.score - total) = rec.score by ring]
          exact min_eq_right hle
        · linarith [h1.2]
      · simp at hnz
    · simp at hnz
    · simp at hnz
  · intro cursor w h now hist scores0 timers0 cands h0 q hq
    rcases batchLoop_scores_mem cursor w h now hist cands _ hq with hmem | hnew
    · exact h0 q hmem
    · exact hnew.2

/-- C10 witness: with a stored score of 95 and a new composite of 89 the
boost is 6 and the clamped final score is exactly 95. -/
theorem c10_witness :
    min 100 (89 + (getGraceBoost [] [("https://a.com/x", ⟨95, 0⟩)]
        "https://a.com/x" 89 10 0).1) = ((⟨95, 0⟩ : ScoreRecord)).score ∧
    30 < ((⟨95, 0⟩ : ScoreRecord)).score :=
  c10_grace_boost_restores_previous.1 [] [("https://a.com/x", ⟨95, 0⟩)]
    "https://a.com/x" 89 10 0 ⟨95, 0⟩ (by simp [List.lookup]) (by norm_num)
    (by norm_num [getGraceBoost, List.lookup])

end InstantNav
